import Mathlib

/-
Verification of the aidetector server's detection engine
(src/server/src: services/heuristics.rs, services/detector.rs,
services/openrouter.rs, routes/analyze.rs, db.rs, models.rs, errors.rs).

Modelling conventions for the shallow embedding:
* `f64` values are modelled as exact rationals (`ℚ`); decimal literals such
  as `0.6` are modelled by their decimal value (`6/10`).  `f64::sqrt` is
  modelled by `ratSqrt`, the real square root truncated at 10^-6
  precision; every concrete input used below is chosen far from the branch
  thresholds a square root feeds, and no universal theorem depends on the
  value of a square root.
* Machine integers (`u8`, `i32`) are modelled as `ℕ`/`ℤ` with the casts
  made explicit (`asU8`, `intToU8`).
* Rust strings are Lean `String`s; character-level processing works on the
  underlying `List Char`.  Rust's Unicode-aware classifiers
  (`char::is_whitespace`, `char::is_alphanumeric`, `str::to_lowercase`)
  are modelled by Lean's ASCII classifiers; every text the theorems touch
  is ASCII except for em/en dash characters, which none of these
  classifiers inspect.
-/

set_option maxRecDepth 100000

/-- Rust `f64::round`: round half away from zero. -/
def rustRound (q : ℚ) : ℤ :=
  if 0 ≤ q then ⌊q + 1/2⌋ else -⌊(1/2) - q⌋

/-- Rust `as u8` cast of an integral `f64`: saturates to `[0, 255]`. -/
def asU8 (z : ℤ) : ℕ := (min 255 (max 0 z)).toNat

/-- Rust `as u8` cast of an `i32`: wraps modulo 256. -/
def intToU8 (z : ℤ) : ℕ := (z % 256).toNat

/-- Binary search for the integer square root; `fuel` bounds recursion so
the definition is structural and kernel-evaluable. -/
def isqrtGo : ℕ → ℕ → ℕ → ℕ → ℕ
  | 0, _, lo, _ => lo
  | f + 1, n, lo, hi =>
    if hi ≤ lo then lo
    else
      let mid := (lo + hi + 1) / 2
      if mid * mid ≤ n then isqrtGo f n mid hi
      else isqrtGo f n lo (mid - 1)

/-- `⌊√n⌋` for natural `n` (fuel `n + 2` dominates the `log₂ n` search steps). -/
def isqrt (n : ℕ) : ℕ := isqrtGo (n + 2) n 0 n

/-- Model of `f64::sqrt` on nonnegative rationals: the real square root
truncated to 10^-6 precision. -/
def ratSqrt (q : ℚ) : ℚ :=
  ((isqrt (q * 1000000000000 : ℚ).floor.toNat : ℤ) : ℚ) / 1000000

/-! ## Character-list utilities

Executable counterparts of the Rust `str` operations used by the engine,
all structurally recursive so that concrete inputs evaluate by `decide`. -/

/-- Rust `str::trim` (ASCII whitespace model). -/
def trimChars (l : List Char) : List Char :=
  ((l.dropWhile Char.isWhitespace).reverse.dropWhile Char.isWhitespace).reverse

/-- Rust `str::split(p)`: fragments between separator characters, empty
fragments included (exactly Rust's semantics for a `char`-class pattern). -/
def splitOnPred (p : Char → Bool) : List Char → List (List Char)
  | [] => [[]]
  | c :: t =>
    match splitOnPred p t with
    | [] => if p c then [[], []] else [[c]]
    | h :: r => if p c then [] :: h :: r else (c :: h) :: r

/-- Rust `str::split_whitespace`: whitespace-separated words, no empties. -/
def wordsOf (l : List Char) : List (List Char) :=
  (splitOnPred Char.isWhitespace l).filter (· ≠ [])

/-- Whether `needle` is a prefix of `hay`. -/
def isPrefixChars : List Char → List Char → Bool
  | [], _ => true
  | _ :: _, [] => false
  | a :: as, b :: bs => a == b && isPrefixChars as bs

/-- Rust `str::contains(pat)` for a string pattern: substring occurrence. -/
def containsSub (hay needle : List Char) : Bool :=
  isPrefixChars needle hay ||
    match hay with
    | [] => false
    | _ :: t => containsSub t needle

/-- One step of Rust `str::matches(pat).count()` with explicit fuel:
counts non-overlapping occurrences from the left. -/
def countMatchesGo : ℕ → List Char → List Char → ℕ
  | 0, _, _ => 0
  | _ + 1, [], _ => 0
  | f + 1, c :: t, needle =>
    if isPrefixChars needle (c :: t) && needle ≠ [] then
      1 + countMatchesGo f ((c :: t).drop needle.length) needle
    else countMatchesGo f t needle

/-- Rust `str::matches(pat).count()` (non-overlapping, leftmost-first). -/
def countMatches (hay needle : List Char) : ℕ := countMatchesGo hay.length hay needle

/-- Index of the first occurrence of character `c`, Rust `str::find(c)`
(character positions; order-isomorphic to Rust's byte positions). -/
def idxOf : List Char → Char → Option ℕ
  | [], _ => none
  | a :: t, c => if a == c then some 0 else (idxOf t c).map (· + 1)

/-- Index of the last occurrence of character `c`, Rust `str::rfind(c)`. -/
def ridxOf : List Char → Char → Option ℕ
  | [], _ => none
  | a :: t, c =>
    match ridxOf t c with
    | some i => some (i + 1)
    | none => if a == c then some 0 else none

/-- Sentence terminators: `'.'`, `'!'`, `'?'` (heuristics.rs line 327). -/
def isTerminator (c : Char) : Bool := c == '.' || c == '!' || c == '?'

/-- `'\x7b'`, written via its code point. -/
def lbraceChar : Char := Char.ofNat 123

/-- `'\x7d'`, written via its code point. -/
def rbraceChar : Char := Char.ofNat 125

/-- `'\x27'` (ASCII apostrophe), written via its code point. -/
def aposChar : Char := Char.ofNat 39

/-- U+2014 EM DASH. -/
def emDashChar : Char := Char.ofNat 8212

/-- U+2013 EN DASH. -/
def enDashChar : Char := Char.ofNat 8211


/-! ## Heuristic engine (src/server/src/services/heuristics.rs) -/

/-- heuristics.rs lines 9-75: `FORMULAIC_PHRASES`. -/
def FORMULAIC_PHRASES : List String :=
  ["in today's world", "it's important to note", "it is important to note",
   "it's worth noting", "it is worth noting", "in conclusion", "to sum up",
   "all things considered", "at the end of the day", "in this article",
   "here's the thing", "without further ado", "that being said",
   "having said that", "let's dive in", "dive into", "delve into",
   "let's explore", "in the world of", "in the realm of", "in light of",
   "to some extent", "in many cases", "it can be argued",
   "studies have shown", "experts agree",
   "game changer", "game-changer", "cutting-edge", "paradigm shift",
   "holistic approach", "thought leader", "value proposition",
   "best practices", "circle back", "unpack this", "at its core",
   "it goes without saying", "comprehensive guide", "treasure trove",
   "tapestry of", "daunting task",
   "leverage", "revolutionize", "seamlessly", "furthermore", "moreover",
   "additionally", "subsequently", "navigate the complexities",
   "supercharge", "unleash", "unlock", "harness", "robust",
   "transformative", "synergy", "confluence", "pivotal", "myriad",
   "plethora", "arguably"]

/-- heuristics.rs lines 78-100: `AI_VOCABULARY`. -/
def AI_VOCABULARY : List String :=
  ["underpinning", "trajectory", "spectrum", "facet", "intricacies",
   "iterative", "nuanced", "holistic", "dynamic", "framework",
   "comprehensive", "innovative", "bustling", "remarkable", "excitingly",
   "turbocharging", "unveiling", "harnessing", "revolutionizing",
   "unleashing", "unlocking"]

/-- heuristics.rs lines 103-107: `HUMAN_SLANG`. -/
def HUMAN_SLANG : List String :=
  ["lol", "lmao", "rofl", "tbh", "fr", "smh", "ngl", "bruh", "omg", "wtf",
   "idk", "imo", "imho", "fwiw", "afaik", "btw", "irl", "fomo", "goat",
   "nah", "yep", "yup", "haha", "hehe", "oops", "ugh", "meh", "pls",
   "plz", "thx", "ty"]

/-- heuristics.rs lines 110-113: `CASUAL_CONTRACTIONS`. -/
def CASUAL_CONTRACTIONS : List String :=
  ["gonna", "wanna", "kinda", "gotta", "dunno", "ain't", "y'all",
   "can't even", "lowkey", "highkey", "deadass", "legit"]

/-- heuristics.rs lines 116-163: `PROMOTIONAL_PATTERNS`. -/
def PROMOTIONAL_PATTERNS : List String :=
  ["link in bio", "link in comments", "link in the comments", "dm me",
   "follow for more", "comment below", "share this", "tag someone",
   "save this post", "bookmark this", "check it out", "don't miss out",
   "sign up", "star if you", "please star", "repost if", "repost this",
   "top 1%", "99% won't", "99% of people", "most people don't",
   "most people won't", "successful people", "the secret is",
   "here's what i", "here's how i", "here are the", "stop doing",
   "start doing", "the truth is", "nobody tells you", "no one tells you",
   "changed my life", "you need to know", "the hard truth",
   "key takeaway", "quick thread", "unpopular opinion", "hot take",
   "here are", "things i learned", "lessons i learned", "mistakes i made"]

/-- Sentences of a text: split on `.`/`!`/`?`, trim, drop empties
(heuristics.rs lines 326-330, 361-365, 419-423, 501-505). -/
def heuristics.sentencesOf (text : String) : List (List Char) :=
  ((splitOnPred isTerminator text.data).map trimChars).filter (· ≠ [])

/-- heuristics.rs lines 325-343: `sentence_length_variance`. -/
def heuristics.sentence_length_variance (text : String) : ℚ :=
  let sentences := heuristics.sentencesOf text
  if sentences.length < 2 then 50
  else
    let lengths : List ℚ := sentences.map (fun s => ((wordsOf s).length : ℚ))
    let mean := lengths.sum / (lengths.length : ℚ)
    (lengths.map (fun l => (l - mean) ^ 2)).sum / (lengths.length : ℚ)

/-- Lowercase a word and strip non-alphanumeric characters from both ends:
`w.to_lowercase().trim_matches(|c| !c.is_alphanumeric())`. -/
def heuristics.normWord (w : List Char) : List Char :=
  let lw := w.map Char.toLower
  ((lw.dropWhile (fun c => !c.isAlphanum)).reverse.dropWhile
      (fun c => !c.isAlphanum)).reverse

/-- heuristics.rs lines 345-358: `type_token_ratio` (vocabulary diversity;
renamed `ttr_of` here). The `HashSet` count is the number of distinct words. -/
def heuristics.ttr_of (text : String) : ℚ :=
  let words := ((wordsOf text.data).map heuristics.normWord).filter (· ≠ [])
  if words = [] then 1
  else ((words.dedup.length : ℚ)) / ((words.length : ℚ))

/-- heuristics.rs lines 360-385: `compute_burstiness`. -/
def heuristics.compute_burstiness (text : String) : ℚ :=
  let sentences := heuristics.sentencesOf text
  if sentences.length < 3 then 1/2
  else
    let lengths : List ℚ := sentences.map (fun s => ((wordsOf s).length : ℚ))
    let mean := lengths.sum / (lengths.length : ℚ)
    if mean = 0 then 1/2
    else
      let std_dev :=
        ratSqrt ((lengths.map (fun l => (l - mean) ^ 2)).sum / (lengths.length : ℚ))
      let raw := (std_dev - mean) / (std_dev + mean)
      (raw + 1) / 2

/-- heuristics.rs lines 387-393: `count_formulaic_phrases`. -/
def heuristics.count_formulaic_phrases (text : String) : ℕ :=
  let lower := text.data.map Char.toLower
  (FORMULAIC_PHRASES.filter (fun p => containsSub lower p.data)).length

/-- heuristics.rs lines 397-406: `count_dashes_split`, returning
`(unicode_dashes, spaced_hyphens)`. -/
def heuristics.count_dashes_split (text : String) : ℕ × ℕ :=
  let unicode :=
    (text.data.filter (fun ch => ch == emDashChar || ch == enDashChar)).length
  let spaced := countMatches text.data " - ".data + countMatches text.data " -- ".data
  (unicode, spaced)

/-- heuristics.rs lines 408-415: `count_ai_vocabulary` (whole-word match on
words split at non-alphanumeric characters). -/
def heuristics.count_ai_vocabulary (text : String) : ℕ :=
  let lower := text.data.map Char.toLower
  let words := (splitOnPred (fun c => !c.isAlphanum) lower).filter (· ≠ [])
  (AI_VOCABULARY.filter (fun v => words.any (fun w => w == v.data))).length

/-- heuristics.rs lines 418-453: `punctuation_analysis`.  The Rust function
pushes the signal label into `signals` and returns `Some(score)`; the pair
returned here carries both. -/
def heuristics.punctuation_analysis (text : String) : Option (ℚ × String) :=
  let sentences := heuristics.sentencesOf text
  if sentences.length < 3 then none
  else
    let total_terminators := (text.data.filter isTerminator).length
    if total_terminators = 0 then none
    else
      let periodFrac : ℚ :=
        ((text.data.filter (fun c => c == '.')).length : ℚ) / (total_terminators : ℚ)
      if 19/20 < periodFrac then some (6, "uniform_punctuation")
      else
        let comma_count := (text.data.filter (fun c => c == ',')).length
        let word_count := (wordsOf text.data).length
        if 0 < word_count ∧ (3/20 : ℚ) < (comma_count : ℚ) / (word_count : ℚ) then
          some (6, "high_comma_frequency")
        else none

/-- heuristics.rs lines 456-487: `count_informality` (slang as whole words
split at characters that are neither alphanumeric nor an apostrophe,
contractions as substrings, repeated punctuation). -/
def heuristics.count_informality (text : String) : ℕ :=
  let lower := text.data.map Char.toLower
  let words :=
    (splitOnPred (fun c => !c.isAlphanum && c != aposChar) lower).filter (· ≠ [])
  let slangCount := (HUMAN_SLANG.filter (fun s => words.any (fun w => w == s.data))).length
  let contrCount :=
    (CASUAL_CONTRACTIONS.filter (fun c => containsSub lower c.data)).length
  let rep1 :=
    if containsSub text.data "!!".data || containsSub text.data "??".data then 1 else 0
  let rep2 := if containsSub text.data "...".data then 1 else 0
  slangCount + contrCount + rep1 + rep2

/-- heuristics.rs lines 490-512: `linebreak_ratio` (ratio of non-empty
lines to sentences; renamed `linebreak_frac` here). -/
def heuristics.linebreak_frac (text : String) : ℚ :=
  let lines := ((splitOnPred (fun c => c == '\n') text.data).map trimChars).filter (· ≠ [])
  if lines.length < 3 then 0
  else
    let sentences := heuristics.sentencesOf text
    if sentences = [] then 0
    else (lines.length : ℚ) / ((max sentences.length 1 : ℕ) : ℚ)

/-- heuristics.rs lines 515-521: `count_promotional`. -/
def heuristics.count_promotional (text : String) : ℕ :=
  let lower := text.data.map Char.toLower
  (PROMOTIONAL_PATTERNS.filter (fun p => containsSub lower p.data)).length

/-- One signal category's contribution to the weighted accumulation in
`heuristics::analyze`: `ds` is added to `score_sum`, `dw` to `weight_sum`,
and `sigs` is appended to `signals`. -/
structure Vote where
  ds : ℚ
  dw : ℚ
  sigs : List String
deriving DecidableEq

/-- A category that detected nothing: no vote, no signal. -/
def noVote : Vote := ⟨0, 0, []⟩

/-- heuristics.rs lines 174-189: sentence-length-variance category. -/
def heuristics.variance_vote (text : String) : Vote :=
  let sentence_variance := heuristics.sentence_length_variance text
  if sentence_variance < 5 then ⟨8 * 2, 2, ["uniform_sentence_length"]⟩
  else if sentence_variance < 15 then ⟨5 * (3/2), 3/2, ["low_sentence_variance"]⟩
  else if 50 < sentence_variance then ⟨2 * (1/2), 1/2, []⟩
  else noVote

/-- heuristics.rs lines 191-202: vocabulary-diversity (TTR) category. -/
def heuristics.ttr_vote (text : String) : Vote :=
  let ttr := heuristics.ttr_of text
  if ttr < 2/5 then ⟨7 * (3/2), 3/2, ["low_vocabulary_diversity"]⟩
  else if 11/20 ≤ ttr then ⟨2 * (1/2), 1/2, []⟩
  else noVote

/-- heuristics.rs lines 204-215: burstiness category. -/
def heuristics.burstiness_vote (text : String) : Vote :=
  let burstiness := heuristics.compute_burstiness text
  if burstiness < 3/10 then ⟨7 * (3/2), 3/2, ["low_burstiness"]⟩
  else if 1/2 ≤ burstiness then ⟨2 * (1/2), 1/2, []⟩
  else noVote

/-- heuristics.rs lines 217-228: formulaic-phrase category. -/
def heuristics.formulaic_vote (text : String) : Vote :=
  let formula_count := heuristics.count_formulaic_phrases text
  if 3 ≤ formula_count then ⟨9 * 3, 3, ["formulaic_phrases"]⟩
  else if 1 ≤ formula_count then ⟨6 * 2, 2, ["some_formulaic_phrases"]⟩
  else noVote

/-- heuristics.rs lines 233-239: Unicode em/en-dash category. -/
def heuristics.unicode_dash_vote (text : String) : Vote :=
  if 1 ≤ (heuristics.count_dashes_split text).1 then ⟨9 * 5, 5, ["em_en_dash"]⟩
  else noVote

/-- heuristics.rs lines 240-244: spaced-hyphen category. -/
def heuristics.spaced_hyphen_vote (text : String) : Vote :=
  if 1 ≤ (heuristics.count_dashes_split text).2 then
    ⟨8 * (5/2), 5/2, ["spaced_hyphen"]⟩
  else noVote

/-- heuristics.rs lines 247-258: AI-vocabulary category. -/
def heuristics.ai_vocab_vote (text : String) : Vote :=
  let ai_word_count := heuristics.count_ai_vocabulary text
  if 3 ≤ ai_word_count then ⟨8 * 2, 2, ["ai_vocabulary"]⟩
  else if 1 ≤ ai_word_count then ⟨6 * (3/2), 3/2, ["some_ai_vocabulary"]⟩
  else noVote

/-- heuristics.rs lines 260-265: punctuation category. -/
def heuristics.punct_vote (text : String) : Vote :=
  match heuristics.punctuation_analysis text with
  | some (ps, sig) => ⟨ps * 1, 1, [sig]⟩
  | none => noVote

/-- heuristics.rs lines 267-278: informality category. -/
def heuristics.informality_vote (text : String) : Vote :=
  let informality := heuristics.count_informality text
  if 3 ≤ informality then ⟨1 * 3, 3, ["informal_language"]⟩
  else if 1 ≤ informality then ⟨2 * 2, 2, ["some_informal_markers"]⟩
  else noVote

/-- heuristics.rs lines 280-291: line-break-formatting category. -/
def heuristics.linebreak_vote (text : String) : Vote :=
  let lb := heuristics.linebreak_frac text
  if 4/5 < lb then ⟨8 * (5/2), 5/2, ["line_per_sentence"]⟩
  else if 1/2 < lb then ⟨7 * 2, 2, ["heavy_line_breaks"]⟩
  else noVote

/-- heuristics.rs lines 293-304: promotional-pattern category. -/
def heuristics.promo_vote (text : String) : Vote :=
  let promo_count := heuristics.count_promotional text
  if 2 ≤ promo_count then ⟨9 * (5/2), 5/2, ["promotional_pattern"]⟩
  else if 1 ≤ promo_count then ⟨6 * (3/2), 3/2, ["some_promotional"]⟩
  else noVote

/-- The ten weighted signal categories of `heuristics::analyze`, in source
order (the dash check contributes two independent votes). -/
def heuristics.votes (text : String) : List Vote :=
  [heuristics.variance_vote text, heuristics.ttr_vote text,
   heuristics.burstiness_vote text, heuristics.formulaic_vote text,
   heuristics.unicode_dash_vote text, heuristics.spaced_hyphen_vote text,
   heuristics.ai_vocab_vote text, heuristics.punct_vote text,
   heuristics.informality_vote text, heuristics.linebreak_vote text,
   heuristics.promo_vote text]

/-- heuristics.rs line 171: `score_sum` starts at `3.0 * 1.5`
(human-leaning prior). -/
def heuristics.init_score_sum : ℚ := 3 * (3/2)

/-- heuristics.rs line 172: `weight_sum` starts at `1.5`. -/
def heuristics.init_weight_sum : ℚ := 3/2

/-- Value of `score_sum` after all categories have voted. -/
def heuristics.score_sum (text : String) : ℚ :=
  heuristics.init_score_sum + ((heuristics.votes text).map Vote.ds).sum

/-- Value of `weight_sum` after all categories have voted. -/
def heuristics.weight_sum (text : String) : ℚ :=
  heuristics.init_weight_sum + ((heuristics.votes text).map Vote.dw).sum

/-- heuristics.rs lines 306-310: the short-text marker appends a signal
label but never votes. -/
def heuristics.short_text_sigs (text : String) : List String :=
  if (wordsOf text.data).length < 20 then ["short_text_low_confidence"] else []

/-- All signal labels in source order. -/
def heuristics.signalsOf (text : String) : List String :=
  ((heuristics.votes text).map Vote.sigs).flatten ++ heuristics.short_text_sigs text

/-- heuristics.rs line 312: `(score_sum / weight_sum).round() as u8`. -/
def heuristics.raw_score (text : String) : ℕ :=
  asU8 (rustRound (heuristics.score_sum text / heuristics.weight_sum text))

/-- heuristics.rs lines 314-317: the em/en-dash override forces the final
score up to at least 8. -/
def heuristics.final_score (text : String) : ℕ :=
  let fs := heuristics.raw_score text
  if 1 ≤ (heuristics.count_dashes_split text).1 ∧ fs < 8 then 8 else fs

/-- heuristics.rs lines 3-7: `HeuristicResult`. -/
structure HeuristicResult where
  score : ℕ
  signals : List String
deriving DecidableEq

/-- heuristics.rs lines 165-323: `heuristics::analyze`. -/
def heuristics.analyze (text : String) : HeuristicResult :=
  ⟨min (heuristics.final_score text) 10, heuristics.signalsOf text⟩

/-! ## Labels (src/server/src/models.rs) -/

/-- models.rs lines 91-111: `score_to_label`.  The Rust `match` on `u8`
ranges `0..=3 | 4..=5 | 6..=7 | 8..=10 | _` is rendered as an if-chain;
the wildcard arm (scores 11..=255) yields `"unknown"`. -/
def score_to_label (score : ℕ) (heuristics_only : Bool) : String :=
  if heuristics_only then
    if score ≤ 3 then "human"
    else if score ≤ 5 then "uncertain"
    else if score ≤ 7 then "likely_ai"
    else if score ≤ 10 then "ai"
    else "unknown"
  else
    if score ≤ 3 then "human"
    else if score ≤ 5 then "mixed"
    else if score ≤ 7 then "likely_ai"
    else if score ≤ 10 then "ai"
    else "unknown"

/-- The label tables exactly as the spec states them (§4.5), for the
refinement comparison in C9. -/
def specLabel (score : ℕ) (heuristics_only : Bool) : String :=
  if score ≤ 3 then "human"
  else if score ≤ 5 then (if heuristics_only then "uncertain" else "mixed")
  else if score ≤ 7 then "likely_ai"
  else "ai"

/-- Rank of a label in the ordering human < mixed/uncertain < likely_ai < ai. -/
def labelRank (l : String) : ℕ :=
  if l = "human" then 0
  else if l = "mixed" ∨ l = "uncertain" then 1
  else if l = "likely_ai" then 2
  else 3

/-! ## SHA-256 (the `sha2` crate used by detector.rs, per FIPS 180-4)

The fingerprint hash.  Constants are derived, as FIPS 180-4 specifies,
from the fractional parts of the square/cube roots of the first primes. -/

/-- Binary search for the integer cube root, with fuel. -/
def icbrtGo : ℕ → ℕ → ℕ → ℕ → ℕ
  | 0, _, lo, _ => lo
  | f + 1, n, lo, hi =>
    if hi ≤ lo then lo
    else
      let mid := (lo + hi + 1) / 2
      if mid * mid * mid ≤ n then icbrtGo f n mid hi
      else icbrtGo f n lo (mid - 1)

/-- `⌊n^(1/3)⌋` for natural `n`. -/
def icbrt (n : ℕ) : ℕ := icbrtGo (n + 2) n 0 n

/-- The first 64 primes. -/
def sha256Primes : List ℕ :=
  [2, 3, 5, 7, 11, 13, 17, 19, 23, 29, 31, 37, 41, 43, 47, 53,
   59, 61, 67, 71, 73, 79, 83, 89, 97, 101, 103, 107, 109, 113, 127, 131,
   137, 139, 149, 151, 157, 163, 167, 173, 179, 181, 191, 193, 197, 199, 211, 223,
   227, 229, 233, 239, 241, 251, 257, 263, 269, 271, 277, 281, 283, 293, 307, 311]

/-- SHA-256 initial hash words: first 32 bits of the fractional parts of
the square roots of the first 8 primes. -/
def shaH : List ℕ := (sha256Primes.take 8).map (fun p => isqrt (p * 2 ^ 64) % 4294967296)

/-- SHA-256 round constants: first 32 bits of the fractional parts of the
cube roots of the first 64 primes. -/
def shaK : List ℕ := sha256Primes.map (fun p => icbrt (p * 2 ^ 96) % 4294967296)

/-- 32-bit rotate right. -/
def rotr32 (n x : ℕ) : ℕ := ((x >>> n) ||| (x <<< (32 - n))) % 4294967296

/-- SHA-256 σ₀. -/
def ssig0 (x : ℕ) : ℕ := (rotr32 7 x) ^^^ (rotr32 18 x) ^^^ (x >>> 3)

/-- SHA-256 σ₁. -/
def ssig1 (x : ℕ) : ℕ := (rotr32 17 x) ^^^ (rotr32 19 x) ^^^ (x >>> 10)

/-- SHA-256 Σ₀. -/
def bsig0 (x : ℕ) : ℕ := (rotr32 2 x) ^^^ (rotr32 13 x) ^^^ (rotr32 22 x)

/-- SHA-256 Σ₁. -/
def bsig1 (x : ℕ) : ℕ := (rotr32 6 x) ^^^ (rotr32 11 x) ^^^ (rotr32 25 x)

/-- The eight 32-bit working variables of the compression function. -/
structure Sha256State where
  a : ℕ
  b : ℕ
  c : ℕ
  d : ℕ
  e : ℕ
  f : ℕ
  g : ℕ
  h : ℕ
deriving DecidableEq

/-- One round of the SHA-256 compression function. -/
def sha256Round (st : Sha256State) (k w : ℕ) : Sha256State :=
  let S1 := bsig1 st.e
  let ch := (st.e &&& st.f) ^^^ ((st.e ^^^ 4294967295) &&& st.g)
  let temp1 := (st.h + S1 + ch + k + w) % 4294967296
  let S0 := bsig0 st.a
  let maj := (st.a &&& st.b) ^^^ (st.a &&& st.c) ^^^ (st.b &&& st.c)
  let temp2 := (S0 + maj) % 4294967296
  ⟨(temp1 + temp2) % 4294967296, st.a, st.b, st.c,
   (st.d + temp1) % 4294967296, st.e, st.f, st.g⟩

/-- Big-endian 32-bit words from a byte list. -/
def be32Words : List ℕ → List ℕ
  | b0 :: b1 :: b2 :: b3 :: rest =>
    (((b0 * 256 + b1) * 256 + b2) * 256 + b3) :: be32Words rest
  | _ => []

/-- Extend 16 schedule words (held in reverse) by `fuel` more. -/
def scheduleGo : ℕ → List ℕ → List ℕ
  | 0, rws => rws
  | f + 1, rws =>
    scheduleGo f
      ((rws.getD 15 0 + ssig0 (rws.getD 14 0) + rws.getD 6 0 + ssig1 (rws.getD 1 0))
          % 4294967296 :: rws)

/-- The 64-entry message schedule from a block's 16 words. -/
def scheduleOf (ws : List ℕ) : List ℕ := (scheduleGo 48 ws.reverse).reverse

/-- Process one 64-byte block. -/
def sha256Block (hs : Sha256State) (block : List ℕ) : Sha256State :=
  let st := ((shaK.zip (scheduleOf (be32Words block))).foldl
    (fun st kw => sha256Round st kw.1 kw.2) hs)
  ⟨(hs.a + st.a) % 4294967296, (hs.b + st.b) % 4294967296,
   (hs.c + st.c) % 4294967296, (hs.d + st.d) % 4294967296,
   (hs.e + st.e) % 4294967296, (hs.f + st.f) % 4294967296,
   (hs.g + st.g) % 4294967296, (hs.h + st.h) % 4294967296⟩

/-- Merkle–Damgård padding: `0x80`, zeros to 56 mod 64, then the bit
length as 8 big-endian bytes. -/
def sha256Pad (msg : List ℕ) : List ℕ :=
  let L := msg.length
  let k := (120 - (L + 1) % 64) % 64
  msg ++ [128] ++ List.replicate k 0 ++
    (List.range 8).map (fun i => ((8 * L) >>> (8 * (7 - i))) % 256)

/-- Split a byte list into 64-byte blocks, with fuel. -/
def chunks64 : ℕ → List ℕ → List (List ℕ)
  | 0, _ => []
  | _ + 1, [] => []
  | f + 1, l => l.take 64 :: chunks64 f (l.drop 64)

/-- The initial hash state. -/
def sha256Init : Sha256State :=
  ⟨shaH.getD 0 0, shaH.getD 1 0, shaH.getD 2 0, shaH.getD 3 0,
   shaH.getD 4 0, shaH.getD 5 0, shaH.getD 6 0, shaH.getD 7 0⟩

/-- SHA-256 digest (32 bytes) of a byte list. -/
def sha256Digest (msg : List ℕ) : List ℕ :=
  let padded := sha256Pad msg
  let fin := (chunks64 padded.length padded).foldl sha256Block sha256Init
  ([fin.a, fin.b, fin.c, fin.d, fin.e, fin.f, fin.g, fin.h].map
    (fun w => [(w >>> 24) % 256, (w >>> 16) % 256, (w >>> 8) % 256, w % 256])).flatten

/-- Lowercase hex digit (matches the `hex` crate's `encode`). -/
def hexDigitChar (n : ℕ) : Char :=
  if n < 10 then Char.ofNat (48 + n) else Char.ofNat (87 + n)

/-- Lowercase hex rendering of a byte list. -/
def bytesToHex (bs : List ℕ) : List Char :=
  (bs.map (fun b => [hexDigitChar (b / 16), hexDigitChar (b % 16)])).flatten

/-- UTF-8 encoding of a Unicode code point. -/
def utf8EncodeCp (c : ℕ) : List ℕ :=
  if c < 128 then [c]
  else if c < 2048 then [192 + c / 64, 128 + c % 64]
  else if c < 65536 then [224 + c / 4096, 128 + (c / 64) % 64, 128 + c % 64]
  else [240 + c / 262144, 128 + (c / 4096) % 64, 128 + (c / 64) % 64, 128 + c % 64]

/-- Rust `str::as_bytes`: the UTF-8 bytes of a string. -/
def utf8Bytes (s : String) : List ℕ := (s.data.map (fun c => utf8EncodeCp c.toNat)).flatten

/-- Rust `String::len`: the UTF-8 byte length. -/
def utf8Len (s : String) : ℕ := (utf8Bytes s).length


/-! ## Errors (src/server/src/errors.rs) -/

/-- errors.rs lines 6-13: `AppError`.  `Database` carries a `sqlx::Error`,
modelled by its message.  detector.rs and anthropic.rs also construct an
`AppError::LlmApi` variant (absent from errors.rs in this snapshot of the
sources); it is included here as written at its construction sites. -/
inductive AppError where
  | BadRequest (msg : String)
  | Unauthorized
  | Internal (msg : String)
  | Database (msg : String)
  | OpenRouter (msg : String)
  | LlmApi (msg : String)
deriving DecidableEq

/-! ## Data model (src/server/src/models.rs) and store (src/server/src/db.rs) -/

/-- models.rs lines 4-10: `AnalyzeRequest`.  `platform` is the enum's
`Display` rendering ("twitter" / "instagram" / "linkedin"). -/
structure AnalyzeRequest where
  content : String
  platform : String
  post_id : Option String
  author : Option String
deriving DecidableEq

/-- models.rs lines 38-43: `Breakdown`. -/
structure Breakdown where
  llm_score : Option ℕ
  heuristic_score : ℕ
  signals : List String
deriving DecidableEq

/-- models.rs lines 30-36: `AnalyzeResponse`. -/
structure AnalyzeResponse where
  score : ℕ
  confidence : ℚ
  label : String
  breakdown : Breakdown
deriving DecidableEq

/-- models.rs lines 45-59: `AnalysisRecord`.  The `signals` column holds a
JSON-serialized string list; serialization is modelled as the identity on
`List String`. -/
structure AnalysisRecord where
  id : String
  content_hash : String
  platform : String
  post_id : Option String
  author : Option String
  score : ℤ
  confidence : ℚ
  label : String
  llm_score : Option ℤ
  heuristic_score : ℤ
  signals : List String
  created_at : String
deriving DecidableEq

/-- The `analyses` table, newest row first (insertion order models the
`created_at DESC` ordering used by the lookup query). -/
structure Store where
  recs : List AnalysisRecord
deriving DecidableEq

/-- db.rs lines 27-40: `find_by_hash` — first row (most recent) whose
`content_hash` matches; read errors surface as `None` (`.ok().flatten()`). -/
def db.find_by_hash (s : Store) (h : String) : Option AnalysisRecord :=
  (s.recs.filter (fun r => r.content_hash == h)).head?

/-- db.rs lines 42-67: a successful `insert_analysis_full` appends the row. -/
def db.insert (s : Store) (r : AnalysisRecord) : Store := ⟨r :: s.recs⟩

/-! ## Orchestrator (src/server/src/services/detector.rs) -/

/-- detector.rs lines 12-16: `LlmResult`. -/
structure LlmResult where
  score : ℕ
  confidence : ℚ
deriving DecidableEq

/-- detector.rs lines 50-54: `ScoreResponse`, the JSON shape the judge
must produce (`score: u8`, `confidence: f64`). -/
structure ScoreResponse where
  score : ℕ
  confidence : ℚ
deriving DecidableEq

/-- Result of running a Rust function that can panic. -/
inductive RustOutcome (α : Type) where
  | ret (a : α)
  | panicked (msg : String)
deriving DecidableEq

/-- Rust `f64::clamp(lo, hi)` (no NaN can reach the call site: the values
come from JSON numbers). -/
def ratClamp (x lo hi : ℚ) : ℚ := min (max x lo) hi

/-- detector.rs lines 57-77: `parse_score`.  The external `serde_json`
parser is a parameter `parse` (`None` models a parse failure).  The slice
`&content[start..end]` panics when `start > end`; both indices sit on char
boundaries (`\x7b` and `\x7d` are ASCII), and `end ≤ len` always, so the
start/end comparison is the only panic condition. -/
def detector.parse_score (parse : String → Option ScoreResponse) (content : String) :
    RustOutcome (Except AppError LlmResult) :=
  let c := trimChars content.data
  match parse (String.mk c) with
  | some p => .ret (.ok ⟨min p.score 10, ratClamp p.confidence 0 1⟩)
  | none =>
    match idxOf c lbraceChar with
    | none => .ret (.error (.LlmApi ("No JSON in LLM response: " ++ String.mk c)))
    | some start =>
      match ridxOf c rbraceChar with
      | none => .ret (.error (.LlmApi ("Malformed JSON in LLM response: " ++ String.mk c)))
      | some j =>
        if start ≤ j + 1 then
          match parse (String.mk ((c.drop start).take (j + 1 - start))) with
          | some p => .ret (.ok ⟨min p.score 10, ratClamp p.confidence 0 1⟩)
          | none => .ret (.error (.LlmApi ("Failed to parse LLM JSON, raw: " ++ String.mk c)))
        else .panicked "slice index starts after it ends"

/-- openrouter.rs lines 115-134: the reply-parsing tail of
`openrouter::analyze`, which duplicates `parse_score` with
`AppError::OpenRouter` errors.  `content` is already trimmed at line 112. -/
def openrouter.parse_reply (parse : String → Option ScoreResponse) (content : String) :
    RustOutcome (Except AppError LlmResult) :=
  let c := content.data
  match parse (String.mk c) with
  | some p => .ret (.ok ⟨min p.score 10, ratClamp p.confidence 0 1⟩)
  | none =>
    match idxOf c lbraceChar with
    | none => .ret (.error (.OpenRouter ("No JSON in LLM response: " ++ String.mk c)))
    | some start =>
      match ridxOf c rbraceChar with
      | none => .ret (.error (.OpenRouter ("Malformed JSON in LLM response: " ++ String.mk c)))
      | some j =>
        if start ≤ j + 1 then
          match parse (String.mk ((c.drop start).take (j + 1 - start))) with
          | some p => .ret (.ok ⟨min p.score 10, ratClamp p.confidence 0 1⟩)
          | none => .ret (.error (.OpenRouter ("Failed to parse LLM JSON, raw: " ++ String.mk c)))
        else .panicked "slice index starts after it ends"

/-- detector.rs lines 154-158: `hash_content` — the SHA-256 hex digest of
the content's UTF-8 bytes.  No metadata enters the hash. -/
def detector.hash_content (content : String) : String :=
  String.mk (bytesToHex (sha256Digest (utf8Bytes content)))

/-- detector.rs line 117: `(llm * 0.6 + heuristic * 0.4).round() as u8`. -/
def detector.combined (llmScore hScore : ℕ) : ℕ :=
  asU8 (rustRound ((llmScore : ℚ) * (6/10) + (hScore : ℚ) * (4/10)))

/-- detector.rs line 118: `combined.min(10)`. -/
def detector.final_score (llmScore hScore : ℕ) : ℕ := min (detector.combined llmScore hScore) 10

/-- detector.rs line 119: `(llm_confidence * 0.7 + 0.3).min(1.0)`. -/
def detector.confidence_of (c : ℚ) : ℚ := min (c * (7/10) + 3/10) 1

deriving instance DecidableEq for Except

/-- The orchestrator's environment: everything `detector::analyze` gets
from outside pure computation — the provider call's outcome, the fresh
UUID, the timestamp, and whether the final INSERT succeeds. -/
structure Env where
  llmReply : Except AppError LlmResult
  newId : String
  now : String
  insertOk : Bool
  insertErr : String
deriving DecidableEq

/-- One orchestrator call's observable outcome: the returned value, the
store afterwards, and whether the LLM judge and the heuristic engine ran
(instrumentation of the Rust control flow: both sub-analyses start only
after the cache misses). -/
structure Outcome where
  result : Except AppError AnalyzeResponse
  store : Store
  cacheChecked : Bool
  llmCalled : Bool
  heuristicsRan : Bool
deriving DecidableEq

/-- detector.rs lines 90-99: the response reconstructed from a cached row
(`score as u8`, `llm_score.map(|s| s as u8)`, `heuristic_score as u8`). -/
def detector.cached_response (cached : AnalysisRecord) : AnalyzeResponse :=
  { score := intToU8 cached.score
    confidence := cached.confidence
    label := cached.label
    breakdown :=
      { llm_score := cached.llm_score.map intToU8
        heuristic_score := intToU8 cached.heuristic_score
        signals := cached.signals } }

/-- detector.rs lines 125-138: the new `AnalysisRecord` built on a cache
miss (line 121 passes only the score to `score_to_label`; with a provider
configured that is the `heuristics_only = false` table of models.rs). -/
def detector.new_record (env : Env) (req : AnalyzeRequest) (llm : LlmResult) : AnalysisRecord :=
  { id := env.newId
    content_hash := detector.hash_content req.content
    platform := req.platform
    post_id := req.post_id
    author := req.author
    score := ((detector.final_score llm.score (heuristics.analyze req.content).score : ℕ) : ℤ)
    confidence := detector.confidence_of llm.confidence
    label := score_to_label (detector.final_score llm.score (heuristics.analyze req.content).score) false
    llm_score := some ((llm.score : ℕ) : ℤ)
    heuristic_score := (((heuristics.analyze req.content).score : ℕ) : ℤ)
    signals := (heuristics.analyze req.content).signals
    created_at := env.now }

/-- detector.rs lines 142-151: the response returned on a cache miss. -/
def detector.ok_response (req : AnalyzeRequest) (llm : LlmResult) : AnalyzeResponse :=
  { score := detector.final_score llm.score (heuristics.analyze req.content).score
    confidence := detector.confidence_of llm.confidence
    label := score_to_label (detector.final_score llm.score (heuristics.analyze req.content).score) false
    breakdown :=
      { llm_score := some llm.score
        heuristic_score := (heuristics.analyze req.content).score
        signals := (heuristics.analyze req.content).signals } }

/-- detector.rs lines 79-152: `detector::analyze`.
On a cache hit the cached row is returned unchanged and neither judge
runs.  On a miss the heuristic engine runs in a blocking task while the
provider is called (`env.llmReply`); a provider error aborts the request
(`?` at lines 109-110).  Otherwise the results are combined, the new
record is built, and `insert_analysis_full(...).await?` (line 140) either
succeeds or propagates the store error as `AppError::Database` (the
`From` impl in errors.rs lines 35-39). -/
def detector.analyze (env : Env) (store : Store) (req : AnalyzeRequest) : Outcome :=
  match db.find_by_hash store (detector.hash_content req.content) with
  | some cached => ⟨.ok (detector.cached_response cached), store, true, false, false⟩
  | none =>
    match env.llmReply with
    | .error e => ⟨.error e, store, true, true, true⟩
    | .ok llm =>
      if env.insertOk then
        ⟨.ok (detector.ok_response req llm),
         db.insert store (detector.new_record env req llm), true, true, true⟩
      else ⟨.error (.Database env.insertErr), store, true, true, true⟩

/-! ## Route-level validation (src/server/src/routes/analyze.rs) -/

/-- routes/analyze.rs lines 9-24: the handler rejects empty-after-trim
content and content whose `String::len` (UTF-8 **bytes**) exceeds 50,000
before calling `detector::analyze`. -/
def routes.analyze (env : Env) (store : Store) (req : AnalyzeRequest) : Outcome :=
  if trimChars req.content.data = [] then
    ⟨.error (.BadRequest "Content cannot be empty"), store, false, false, false⟩
  else if 50000 < utf8Len req.content then
    ⟨.error (.BadRequest "Content too long (max 50000 chars)"), store, false, false, false⟩
  else detector.analyze env store req

/-! ## Claim-level predicates and concrete inputs -/

/-- A text on which no signal category contributes any evidence: every
category's vote adds nothing to `score_sum` or `weight_sum`. -/
def heuristics.NoEvidence (text : String) : Prop :=
  ∀ v ∈ heuristics.votes text, v.ds = 0 ∧ v.dw = 0

/-- A neutral text: three sentences of 1/6/11 words (variance 50/3,
burstiness ≈ 0.405), TTR exactly 1/2, two periods and one bang, and no
phrase-list hits — every category stays silent. -/
def c1text : String :=
  "Cat. Dog ran top sun red big. Cat dog ran sun red big wet low top wet sun!"

/-- A text containing one em dash. -/
def c3text : String := "It was good — mostly."

/-- A one-sentence text (fewer than 3 sentences). -/
def c7text : String := "Cat."

/-- An empty store (no cached analyses). -/
def store0 : Store := ⟨[]⟩

/-- A plain request. -/
def req2 : AnalyzeRequest := ⟨"some post text", "twitter", none, none⟩

/-- An environment whose provider call succeeds but whose final INSERT
fails with a store error. -/
def env2 : Env := ⟨.ok ⟨7, 1/2⟩, "id-2", "2026-01-01 00:00:00", false, "disk full"⟩

/-- A request for the combination-formula witness. -/
def req4 : AnalyzeRequest := ⟨"hi there", "twitter", none, none⟩

/-- An environment whose provider call and INSERT both succeed. -/
def env4 : Env := ⟨.ok ⟨7, 1/2⟩, "id-4", "2026-01-01 00:00:01", true, ""⟩

/-- First request: some content, twitter, no metadata. -/
def req5a : AnalyzeRequest := ⟨"hello world", "twitter", none, none⟩

/-- Second request: byte-identical content, entirely different metadata. -/
def req5b : AnalyzeRequest := ⟨"hello world", "linkedin", some "p1", some "alice"⟩

/-- Environment of the first (cache-missing) call. -/
def env5a : Env := ⟨.ok ⟨6, 4/5⟩, "id-5", "2026-01-02 00:00:00", true, ""⟩

/-- Environment of the second call: its provider is even down, which the
cache hit never notices. -/
def env5b : Env := ⟨.error (.OpenRouter "provider down"), "id-6", "2026-01-02 00:00:01", true, ""⟩

/-- 16,667 em dashes: 16,667 characters but 50,001 UTF-8 bytes. -/
def c6text : String := String.mk (List.replicate 16667 emDashChar)

/-- The over-byte-limit request. -/
def req6 : AnalyzeRequest := ⟨c6text, "twitter", none, none⟩

/-- An environment whose provider reply is a success (in particular never
an `AppError::BadRequest`). -/
def env6 : Env := ⟨.ok ⟨5, 1⟩, "id-7", "2026-01-03 00:00:00", true, ""⟩

/-- The empty-content request. -/
def req6e : AnalyzeRequest := ⟨"", "twitter", none, none⟩

/-- A JSON-parser oracle that accepts everything, reporting an
out-of-range score 12 and confidence 3. -/
def parseConst : String → Option ScoreResponse := fun _ => some ⟨12, 3⟩

/-- A JSON-parser oracle that rejects everything — `serde_json` fails on
each of the non-JSON fragments fed to it below. -/
def noJsonParse : String → Option ScoreResponse := fun _ => none

/-- The reply `"\x7dtext\x7b"`: the last closing brace comes before the
first opening brace. -/
def c10text : String := String.mk (rbraceChar :: ("text".data ++ [lbraceChar]))

/-! ## The claims -/

section ClaimProofs
attribute [local semireducible] Rat.add Rat.mul Rat.inv Rat.sub

set_option maxHeartbeats 1600000

/-- C3: any text with at least one Unicode em/en dash gets a heuristic
score of at least 8 and at most 10, whatever the weighted result was. -/
theorem c3_dash_override (text : String)
    (h : 1 ≤ (heuristics.count_dashes_split text).1) :
    8 ≤ (heuristics.analyze text).score ∧ (heuristics.analyze text).score ≤ 10 := by
  have h8 : 8 ≤ heuristics.final_score text := by
    show 8 ≤ if 1 ≤ (heuristics.count_dashes_split text).1 ∧ heuristics.raw_score text < 8
      then 8 else heuristics.raw_score text
    split_ifs with hc
    · exact le_refl 8
    · omega
  exact ⟨le_min h8 (by omega), min_le_right _ _⟩

/-- C3 witness: the em-dash text scores between 8 and 10. -/
theorem c3_dash_override_witness :
    1 ≤ (heuristics.count_dashes_split c3text).1 ∧
    8 ≤ (heuristics.analyze c3text).score ∧ (heuristics.analyze c3text).score ≤ 10 := by
  have h : 1 ≤ (heuristics.count_dashes_split c3text).1 := by decide
  exact ⟨h, c3_dash_override c3text h⟩

theorem labelRank_eval (s : ℕ) (b : Bool) :
    labelRank (score_to_label s b) =
      if s ≤ 3 then 0 else if s ≤ 5 then 1 else if s ≤ 7 then 2 else 3 := by
  unfold score_to_label
  cases b <;> split_ifs <;> first | decide | omega

/-- C9: `score_to_label` realizes exactly the two fixed tables of §4.5 on
scores 0..10 (with-LLM: human/mixed/likely_ai/ai; heuristics-only: the
4-5 band is "uncertain") and is monotone for the ordering human <
mixed/uncertain < likely_ai < ai. -/
theorem c9_label_tables_monotone (b : Bool) (s t : ℕ)
    (hs : s ≤ 10) (ht : t ≤ 10) (hst : s ≤ t) :
    score_to_label s b = specLabel s b ∧
    labelRank (score_to_label s b) ≤ labelRank (score_to_label t b) := by
  constructor
  · unfold score_to_label specLabel
    cases b <;> split_ifs <;> first | rfl | omega
  · rw [labelRank_eval, labelRank_eval]
    split_ifs <;> omega

/-- C9 witness: the tables and monotonicity at scores 2 and 9. -/
theorem c9_label_tables_monotone_witness :
    (2 : ℕ) ≤ 10 ∧ (9 : ℕ) ≤ 10 ∧ (2 : ℕ) ≤ 9 ∧
    score_to_label 2 true = specLabel 2 true ∧
    labelRank (score_to_label 2 true) ≤ labelRank (score_to_label 9 true) := by
  have h := c9_label_tables_monotone true 2 9 (by decide) (by decide) (by decide)
  exact ⟨by decide, by decide, by decide, h.1, h.2⟩

theorem ratClamp01 (x : ℚ) : 0 ≤ ratClamp x 0 1 ∧ ratClamp x 0 1 ≤ 1 :=
  ⟨le_min (le_max_right x 0) (by norm_num), min_le_right _ _⟩

/-- C8: whenever a judge reply parses successfully — through
`detector::parse_score` or through the duplicated parsing tail of
`openrouter::analyze` — the returned `LlmResult` has score in [0,10] and
confidence in [0,1], whatever numeric values the model reported. -/
theorem c8_parsed_result_clamped (parse : String → Option ScoreResponse)
    (content : String) (r r' : LlmResult) :
    (detector.parse_score parse content = .ret (.ok r) →
      r.score ≤ 10 ∧ 0 ≤ r.confidence ∧ r.confidence ≤ 1) ∧
    (openrouter.parse_reply parse content = .ret (.ok r') →
      r'.score ≤ 10 ∧ 0 ≤ r'.confidence ∧ r'.confidence ≤ 1) := by
  constructor
  · intro h
    unfold detector.parse_score at h
    dsimp only at h
    repeat' split at h
    all_goals simp_all
    all_goals subst h
    all_goals exact ⟨min_le_right _ 10, (ratClamp01 _).1, (ratClamp01 _).2⟩
  · intro h
    unfold openrouter.parse_reply at h
    dsimp only at h
    repeat' split at h
    all_goals simp_all
    all_goals subst h
    all_goals exact ⟨min_le_right _ 10, (ratClamp01 _).1, (ratClamp01 _).2⟩

/-- C8 witness: an oracle reporting score 12 and confidence 3 is clamped
to score 10, confidence 1. -/
theorem c8_parsed_result_clamped_witness :
    detector.parse_score parseConst "x" = .ret (.ok ⟨10, 1⟩) ∧
    openrouter.parse_reply parseConst "x" = .ret (.ok ⟨10, 1⟩) ∧
    (10 : ℕ) ≤ 10 ∧ (0 : ℚ) ≤ 1 ∧ (1 : ℚ) ≤ 1 := by
  have hp : detector.parse_score parseConst "x" = .ret (.ok ⟨10, 1⟩) := by decide
  have hq : openrouter.parse_reply parseConst "x" = .ret (.ok ⟨10, 1⟩) := by decide
  have h := c8_parsed_result_clamped parseConst "x" ⟨10, 1⟩ ⟨10, 1⟩
  exact ⟨hp, hq, (h.1 hp).1, (h.1 hp).2.1, (h.2 hq).2.2⟩

/-- C10: `parse_score` is not total — on the reply `"\x7dtext\x7b"` the
brace-extraction fallback computes `start = 5` and `end = 0 + 1 = 1`, and
the slice `&content[5..1]` panics instead of returning an error. -/
theorem c10_parse_score_panics :
    idxOf (trimChars c10text.data) lbraceChar = some 5 ∧
    ridxOf (trimChars c10text.data) rbraceChar = some 0 ∧
    detector.parse_score noJsonParse c10text =
      .panicked "slice index starts after it ends" := by decide


/-- C1 (counterexample): the accumulators do not start at 0 —
`score_sum` starts at `3.0 * 1.5` and `weight_sum` at `1.5` — so the
claimed no-prior design with neutral fallback 5 is false. -/
theorem c1_counterexample :
    ¬ (heuristics.init_score_sum = 0 ∧ heuristics.init_weight_sum = 0 ∧
       ∀ text : String, heuristics.NoEvidence text →
         heuristics.weight_sum text = 0 ∧ (heuristics.analyze text).score = 5) := by
  intro h
  have h1 : (3 : ℚ) * (3/2) = 0 := h.1
  norm_num at h1

/-- C1 (amended): `score_sum` starts at `3.0 * 1.5 = 4.5` and
`weight_sum` at `1.5` (a human-leaning prior), and on a text where no
signal category contributes evidence they keep those values, so the final
heuristic score is `round(4.5/1.5) = 3` — not a fallback of 5, which does
not exist since `weight_sum` is never 0. -/
theorem c1_amended_prior (text : String) (h : heuristics.NoEvidence text) :
    heuristics.init_score_sum = 9/2 ∧ heuristics.init_weight_sum = 3/2 ∧
    heuristics.score_sum text = 9/2 ∧ heuristics.weight_sum text = 3/2 ∧
    (heuristics.analyze text).score = 3 := by
  simp only [heuristics.NoEvidence, heuristics.votes, List.forall_mem_cons,
    List.not_mem_nil, false_implies, implies_true, and_true] at h
  obtain ⟨⟨hd1, hw1⟩, ⟨hd2, hw2⟩, ⟨hd3, hw3⟩, ⟨hd4, hw4⟩, ⟨hd5, hw5⟩,
    ⟨hd6, hw6⟩, ⟨hd7, hw7⟩, ⟨hd8, hw8⟩, ⟨hd9, hw9⟩, ⟨hd10, hw10⟩, ⟨hd11, hw11⟩⟩ := h
  have hsc : heuristics.score_sum text = 9/2 := by
    simp [heuristics.score_sum, heuristics.votes, hd1, hd2, hd3, hd4, hd5,
      hd6, hd7, hd8, hd9, hd10, hd11, heuristics.init_score_sum]
    norm_num
  have hwt : heuristics.weight_sum text = 3/2 := by
    simp [heuristics.weight_sum, heuristics.votes, hw1, hw2, hw3, hw4, hw5,
      hw6, hw7, hw8, hw9, hw10, hw11, heuristics.init_weight_sum]
  have hud : (heuristics.count_dashes_split text).1 = 0 := by
    by_contra hne
    have h1 : 1 ≤ (heuristics.count_dashes_split text).1 := Nat.one_le_iff_ne_zero.2 hne
    have h5 := hw5
    unfold heuristics.unicode_dash_vote at h5
    rw [if_pos h1] at h5
    norm_num at h5
  have hraw : heuristics.raw_score text = 3 := by
    unfold heuristics.raw_score
    rw [hsc, hwt]
    have : (9/2 : ℚ) / (3/2) = 3 := by norm_num
    rw [this]
    decide
  have hfin : heuristics.final_score text = 3 := by
    show (if 1 ≤ (heuristics.count_dashes_split text).1 ∧ heuristics.raw_score text < 8
      then 8 else heuristics.raw_score text) = 3
    rw [hud, hraw]
    norm_num
  refine ⟨by norm_num [heuristics.init_score_sum], rfl, hsc, hwt, ?_⟩
  show min (heuristics.final_score text) 10 = 3
  rw [hfin]
  norm_num

/-- C1 witness: on the neutral text every category is silent, and the
score is 3 with `weight_sum` = 1.5. -/
theorem c1_amended_prior_witness :
    heuristics.NoEvidence c1text ∧ heuristics.weight_sum c1text = 3/2 ∧
    (heuristics.analyze c1text).score = 3 := by
  have h : heuristics.NoEvidence c1text := by
    unfold heuristics.NoEvidence
    decide
  exact ⟨h, (c1_amended_prior c1text h).2.2.2.1, (c1_amended_prior c1text h).2.2.2.2⟩

/-- C7 (counterexample): on a one-sentence text the burstiness extractor
does return the neutral 0.5, but since the code's weak-human branch tests
`burstiness >= 0.5`, the burstiness category still votes: it adds 0.5 to
`weight_sum` (and 1.0 to `score_sum`), contradicting "contributes
nothing". -/
theorem c7_counterexample :
    (heuristics.sentencesOf c7text).length < 3 ∧
    heuristics.compute_burstiness c7text = 1/2 ∧
    (heuristics.burstiness_vote c7text).dw = 1/2 ∧
    heuristics.burstiness_vote c7text ≠ noVote := by decide

/-- C7 (amended): for every text with fewer than 3 sentences the
burstiness extractor returns 0.5, and because `0.5 >= 0.5` the burstiness
category contributes the weak-human vote — `2.0 * 0.5 = 1.0` to
`score_sum` and `0.5` to `weight_sum` — rather than nothing. -/
theorem c7_short_text_burstiness (text : String)
    (h : (heuristics.sentencesOf text).length < 3) :
    heuristics.compute_burstiness text = 1/2 ∧
    heuristics.burstiness_vote text = ⟨2 * (1/2), 1/2, []⟩ := by
  have hb : heuristics.compute_burstiness text = 1/2 := by
    unfold heuristics.compute_burstiness
    rw [if_pos h]
  refine ⟨hb, ?_⟩
  unfold heuristics.burstiness_vote
  rw [hb]
  norm_num

/-- C7 witness: the one-sentence text gets burstiness 0.5 and the
weak-human vote. -/
theorem c7_short_text_burstiness_witness :
    (heuristics.sentencesOf c7text).length < 3 ∧
    heuristics.burstiness_vote c7text = ⟨2 * (1/2), 1/2, []⟩ := by
  have h : (heuristics.sentencesOf c7text).length < 3 := by decide
  exact ⟨h, (c7_short_text_burstiness c7text h).2⟩


theorem detector_analyze_hit (env : Env) (store : Store) (req : AnalyzeRequest)
    (rec : AnalysisRecord)
    (hfind : db.find_by_hash store (detector.hash_content req.content) = some rec) :
    detector.analyze env store req =
      ⟨.ok (detector.cached_response rec), store, true, false, false⟩ := by
  simp only [detector.analyze, hfind]

theorem detector_analyze_miss (env : Env) (store : Store) (req : AnalyzeRequest)
    (llm : LlmResult)
    (hmiss : db.find_by_hash store (detector.hash_content req.content) = none)
    (hllm : env.llmReply = .ok llm) (hok : env.insertOk = true) :
    detector.analyze env store req =
      ⟨.ok (detector.ok_response req llm),
       ⟨detector.new_record env req llm :: store.recs⟩, true, true, true⟩ := by
  simp only [detector.analyze, hmiss, hllm, hok, if_true, db.insert]

theorem detector_analyze_insert_fail (env : Env) (store : Store) (req : AnalyzeRequest)
    (llm : LlmResult)
    (hmiss : db.find_by_hash store (detector.hash_content req.content) = none)
    (hllm : env.llmReply = .ok llm) (hfail : env.insertOk = false) :
    detector.analyze env store req =
      ⟨.error (.Database env.insertErr), store, true, true, true⟩ := by
  simp only [detector.analyze, hmiss, hllm, hfail, Bool.false_eq_true, if_false]

/-- C2 (counterexample): with the provider call succeeding and the final
INSERT failing, `detector::analyze` returns the store error — the
computed result is not returned, refuting the claim at this input. -/
theorem c2_counterexample :
    env2.insertOk = false ∧ env2.llmReply = .ok ⟨7, 1/2⟩ ∧
    (detector.analyze env2 store0 req2).result = .error (.Database "disk full") ∧
    ∀ resp : AnalyzeResponse, (detector.analyze env2 store0 req2).result ≠ .ok resp := by
  have h := detector_analyze_insert_fail env2 store0 req2 ⟨7, 1/2⟩ rfl rfl rfl
  refine ⟨rfl, rfl, by rw [h]; rfl, ?_⟩
  intro resp hr
  rw [h] at hr
  exact Except.noConfusion hr

/-- C2 (amended): when the final persistence write fails after a
successful analysis, `detector::analyze` propagates the store error
(`AppError::Database`, via the `?` on `insert_analysis_full` at line 140)
instead of returning the computed result, and the store is unchanged. -/
theorem c2_insert_failure_propagates (env : Env) (store : Store) (req : AnalyzeRequest)
    (llm : LlmResult)
    (hmiss : db.find_by_hash store (detector.hash_content req.content) = none)
    (hllm : env.llmReply = .ok llm) (hfail : env.insertOk = false) :
    (detector.analyze env store req).result = .error (.Database env.insertErr) ∧
    (detector.analyze env store req).store = store := by
  rw [detector_analyze_insert_fail env store req llm hmiss hllm hfail]
  exact ⟨rfl, rfl⟩

/-- C2 witness: the failing-INSERT environment yields the `Database`
error and an unchanged store. -/
theorem c2_insert_failure_propagates_witness :
    (detector.analyze env2 store0 req2).result = .error (.Database "disk full") ∧
    (detector.analyze env2 store0 req2).store = store0 := by
  have h := c2_insert_failure_propagates env2 store0 req2 ⟨7, 1/2⟩ rfl rfl rfl
  exact ⟨h.1, h.2⟩

/-- C4: on a cache miss with both sub-results available the response
carries `final_score = round(llm * 0.6 + heuristic * 0.4)` clamped to
[0,10] and `confidence = min(1, llm_confidence * 0.7 + 0.3)`; for any
provider confidence in [0,1] the returned confidence is in [0.3, 1]. -/
theorem c4_combination_formula (env : Env) (store : Store) (req : AnalyzeRequest)
    (llm : LlmResult)
    (hmiss : db.find_by_hash store (detector.hash_content req.content) = none)
    (hllm : env.llmReply = .ok llm) (hok : env.insertOk = true)
    (hc0 : 0 ≤ llm.confidence) (hc1 : llm.confidence ≤ 1) :
    ∃ resp : AnalyzeResponse,
      (detector.analyze env store req).result = .ok resp ∧
      resp.score = min (asU8 (rustRound ((llm.score : ℚ) * (6/10) +
        ((heuristics.analyze req.content).score : ℚ) * (4/10)))) 10 ∧
      resp.score ≤ 10 ∧
      resp.confidence = min (llm.confidence * (7/10) + 3/10) 1 ∧
      3/10 ≤ resp.confidence ∧ resp.confidence ≤ 1 := by
  rw [detector_analyze_miss env store req llm hmiss hllm hok]
  refine ⟨detector.ok_response req llm, rfl, rfl, min_le_right _ _, rfl, ?_, min_le_right _ _⟩
  refine le_min ?_ (by norm_num)
  have h7 : 0 ≤ llm.confidence * (7/10) := mul_nonneg hc0 (by norm_num)
  linarith

/-- C4 witness: a miss with llm score 7, confidence 1/2. -/
theorem c4_combination_formula_witness :
    (0 : ℚ) ≤ 1/2 ∧ (1/2 : ℚ) ≤ 1 ∧
    ∃ resp : AnalyzeResponse,
      (detector.analyze env4 store0 req4).result = .ok resp ∧
      resp.score = min (asU8 (rustRound ((7 : ℚ) * (6/10) +
        ((heuristics.analyze req4.content).score : ℚ) * (4/10)))) 10 ∧
      resp.score ≤ 10 ∧
      resp.confidence = min ((1/2 : ℚ) * (7/10) + 3/10) 1 ∧
      3/10 ≤ resp.confidence ∧ resp.confidence ≤ 1 := by
  have h := c4_combination_formula env4 store0 req4 ⟨7, 1/2⟩ rfl rfl rfl
    (by norm_num) (by norm_num)
  exact ⟨by norm_num, by norm_num, h⟩

/-- C5: the fingerprint is a function of the content bytes alone, so two
requests with byte-identical content — metadata notwithstanding — share
it; after a first call caches a record, the second call returns that
stored record's result with no LLM call, no heuristic run, and no new
insert. -/
theorem c5_fingerprint_idempotence (env1 env2 : Env) (store : Store)
    (req1 req2 : AnalyzeRequest) (llm : LlmResult)
    (hcontent : req2.content = req1.content)
    (hmiss : db.find_by_hash store (detector.hash_content req1.content) = none)
    (hllm : env1.llmReply = .ok llm) (hok : env1.insertOk = true) :
    detector.hash_content req2.content = detector.hash_content req1.content ∧
    ∃ rec : AnalysisRecord,
      (detector.analyze env1 store req1).store = ⟨rec :: store.recs⟩ ∧
      rec.content_hash = detector.hash_content req1.content ∧
      (detector.analyze env2 (detector.analyze env1 store req1).store req2).result =
        .ok (detector.cached_response rec) ∧
      (detector.analyze env2 (detector.analyze env1 store req1).store req2).store =
        (detector.analyze env1 store req1).store ∧
      (detector.analyze env2 (detector.analyze env1 store req1).store req2).llmCalled = false ∧
      (detector.analyze env2 (detector.analyze env1 store req1).store req2).heuristicsRan = false := by
  have hfp : detector.hash_content req2.content = detector.hash_content req1.content := by
    rw [hcontent]
  have hcall := detector_analyze_miss env1 store req1 llm hmiss hllm hok
  have hrech : (detector.new_record env1 req1 llm).content_hash =
      detector.hash_content req1.content := rfl
  have hfind : db.find_by_hash ⟨detector.new_record env1 req1 llm :: store.recs⟩
      (detector.hash_content req2.content) = some (detector.new_record env1 req1 llm) := by
    unfold db.find_by_hash
    rw [hfp]
    simp [List.filter_cons, hrech]
  have hcall2 := detector_analyze_hit env2 ⟨detector.new_record env1 req1 llm :: store.recs⟩
    req2 (detector.new_record env1 req1 llm) hfind
  rw [hcall]
  exact ⟨hfp, detector.new_record env1 req1 llm, rfl, hrech,
    by rw [hcall2], by rw [hcall2], by rw [hcall2], by rw [hcall2]⟩

/-- C5 witness: two concrete requests with identical content and
different metadata; the second call hits the cache even though its own
provider is down. -/
theorem c5_fingerprint_idempotence_witness :
    req5b.content = req5a.content ∧
    detector.hash_content req5b.content = detector.hash_content req5a.content ∧
    ∃ rec : AnalysisRecord,
      (detector.analyze env5a store0 req5a).store = ⟨rec :: store0.recs⟩ ∧
      (detector.analyze env5b (detector.analyze env5a store0 req5a).store req5b).result =
        .ok (detector.cached_response rec) ∧
      (detector.analyze env5b (detector.analyze env5a store0 req5a).store req5b).llmCalled =
        false ∧
      (detector.analyze env5b (detector.analyze env5a store0 req5a).store req5b).heuristicsRan =
        false := by
  have h := c5_fingerprint_idempotence env5a env5b store0 req5a req5b ⟨6, 4/5⟩ rfl rfl rfl rfl
  obtain ⟨hfp, rec, h1, h2, h3, h4, h5, h6⟩ := h
  exact ⟨rfl, hfp, rec, h1, h3, h5, h6⟩


/-- The implementation hashes correctly: FIPS 180-4 test vector. -/
theorem sha256_abc_test_vector :
    String.mk (bytesToHex (sha256Digest (utf8Bytes "abc"))) =
      "ba7816bf8f01cfea414140de5dae2223b00361a396177a9cb410ff61f20015ad" := by decide

theorem dropWhile_ws_replicate (n : ℕ) (c : Char) (h : c.isWhitespace = false) :
    (List.replicate n c).dropWhile Char.isWhitespace = List.replicate n c := by
  cases n with
  | zero => rfl
  | succ m => rw [List.replicate_succ, List.dropWhile_cons, h]; simp

theorem trimChars_replicate (n : ℕ) (c : Char) (h : c.isWhitespace = false) :
    trimChars (List.replicate n c) = List.replicate n c := by
  unfold trimChars
  rw [dropWhile_ws_replicate n c h, List.reverse_replicate,
    dropWhile_ws_replicate n c h, List.reverse_replicate]

theorem utf8Len_replicate (n : ℕ) (c : Char) :
    utf8Len (String.mk (List.replicate n c)) = n * (utf8EncodeCp c.toNat).length := by
  unfold utf8Len utf8Bytes
  rw [show (String.mk (List.replicate n c)).data = List.replicate n c from rfl,
    List.map_replicate, List.length_flatten, List.map_replicate, List.sum_replicate,
    smul_eq_mul]

/-- C6 (counterexample): 16,667 em dashes are 16,667 characters — within
the claimed 50,000-character limit — and nonempty after trimming, yet the
route rejects the request, because the code compares `String::len`, which
counts UTF-8 bytes (here 50,001). -/
theorem c6_counterexample :
    c6text.data.length = 16667 ∧ (16667 : ℕ) ≤ 50000 ∧
    trimChars c6text.data ≠ [] ∧
    utf8Len c6text = 50001 ∧
    (routes.analyze env6 store0 req6).result =
      .error (.BadRequest "Content too long (max 50000 chars)") := by
  have hws : emDashChar.isWhitespace = false := by decide
  have hdata : c6text.data = List.replicate 16667 emDashChar := rfl
  have htrim : trimChars c6text.data = List.replicate 16667 emDashChar := by
    rw [hdata, trimChars_replicate _ _ hws]
  have hne : trimChars c6text.data ≠ [] := by
    rw [htrim]
    intro hcontra
    have hl := congrArg List.length hcontra
    rw [List.length_replicate, List.length_nil] at hl
    omega
  have hlen : utf8Len c6text = 50001 := by
    have h3 : (utf8EncodeCp emDashChar.toNat).length = 3 := by decide
    have := utf8Len_replicate 16667 emDashChar
    rw [h3] at this
    exact this
  refine ⟨by rw [hdata, List.length_replicate], by norm_num, hne, hlen, ?_⟩
  unfold routes.analyze
  have hreq : req6.content = c6text := rfl
  rw [hreq, if_neg hne, if_pos (by rw [hlen]; norm_num)]

/-- C6 (amended): the route rejects with `BadRequest` exactly when the
content is empty after trimming or its UTF-8 **byte** length exceeds
50,000 (not its character count), and a rejected request reaches neither
the cache lookup, the heuristic engine, the LLM judge, nor the store. -/
theorem c6_validation_iff (env : Env) (store : Store) (req : AnalyzeRequest)
    (henv : ∀ msg : String, env.llmReply ≠ .error (.BadRequest msg)) :
    (∀ msg : String, (routes.analyze env store req).result = .error (.BadRequest msg) →
      trimChars req.content.data = [] ∨ 50000 < utf8Len req.content) ∧
    ((trimChars req.content.data = [] ∨ 50000 < utf8Len req.content) →
      (∃ msg : String, (routes.analyze env store req).result = .error (.BadRequest msg)) ∧
      (routes.analyze env store req).store = store ∧
      (routes.analyze env store req).cacheChecked = false ∧
      (routes.analyze env store req).llmCalled = false ∧
      (routes.analyze env store req).heuristicsRan = false) := by
  have hdet : ∀ msg : String,
      (detector.analyze env store req).result ≠ .error (.BadRequest msg) := by
    intro msg
    unfold detector.analyze
    cases hf : db.find_by_hash store (detector.hash_content req.content) with
    | some cached => simp
    | none =>
      cases he : env.llmReply with
      | error e =>
        dsimp only
        intro hcontra
        injection hcontra with he2
        apply henv msg
        rw [he, he2]
      | ok llm =>
        by_cases hin : env.insertOk = true
        · rw [hin]
          simp
        · rw [show env.insertOk = false from by simpa using hin]
          simp
  unfold routes.analyze
  split_ifs with h1 h2
  · exact ⟨fun msg _ => Or.inl h1, fun _ => ⟨⟨_, rfl⟩, rfl, rfl, rfl, rfl⟩⟩
  · exact ⟨fun msg _ => Or.inr h2, fun _ => ⟨⟨_, rfl⟩, rfl, rfl, rfl, rfl⟩⟩
  · refine ⟨fun msg hmsg => absurd hmsg (hdet msg), fun hcond => ?_⟩
    rcases hcond with hc | hc
    · exact absurd hc h1
    · exact absurd hc h2

/-- C6 witness: the empty request is rejected without any work. -/
theorem c6_validation_iff_witness :
    trimChars (String.data "") = [] ∧
    (∃ msg : String, (routes.analyze env6 store0 req6e).result = .error (.BadRequest msg)) ∧
    (routes.analyze env6 store0 req6e).cacheChecked = false ∧
    (routes.analyze env6 store0 req6e).llmCalled = false := by
  have henv : ∀ msg : String, env6.llmReply ≠ .error (.BadRequest msg) := by
    intro msg
    simp [env6]
  have h := (c6_validation_iff env6 store0 req6e henv).2 (Or.inl rfl)
  exact ⟨rfl, h.1, h.2.2.1, h.2.2.2.1⟩

end ClaimProofs
